import Mathlib

/-!
Verification of the danielrobbins/ibm-dw-zeromq-3 metrics relay system
(agent / collector / client) against its natural-language specification.

The Python sources are shallow-embedded: byte strings become `List Nat`,
Python dicts become insertion-ordered association lists, wall-clock
datetimes become `Int` seconds, and every fallible Python operation
(attribute lookup on a missing attribute, keyword-argument binding,
UTF-8 decoding, JSON parsing) is made explicit with `Except`/`Option`.
Event handlers are state-transition functions returning the mutated
state, the list of attempted socket sends, and the Python exception, if
any, that escapes the handler; mutations performed before an exception
is raised are retained, matching Python semantics under an event loop
that logs and swallows callback exceptions.
-/

namespace ZmqMetrics

/-- A Python byte string (one ZeroMQ frame), as a list of byte values. -/
abbrev Bytes := List Nat

/-- Python exceptions that the embedded code can raise. -/
inductive PyErr where
  | indexError
  | typeError
  | attributeError (attr : String)
  | unicodeDecodeError
  | jsonDecodeError
  deriving DecidableEq, Repr

/-! ## Python dicts as insertion-ordered association lists -/

/-- Lookup in a Python dict (`d[k]` / `d.get(k)`). -/
def dictGet {α β : Type} [DecidableEq α] : List (α × β) → α → Option β
  | [], _ => none
  | (k', v) :: rest, k => if k' = k then some v else dictGet rest k

/-- Update `d[k] = v`: replaces in place if `k` is present, else appends,
matching Python insertion-order semantics. -/
def dictSet {α β : Type} [DecidableEq α] : List (α × β) → α → β → List (α × β)
  | [], k, v => [(k, v)]
  | (k', v') :: rest, k, v =>
    if k' = k then (k, v) :: rest else (k', v') :: dictSet rest k v

/-- Deletion `del d[k]` (on a key known to be present, as at every call
site in the source; removes the first occurrence). -/
def dictDel {α β : Type} [DecidableEq α] : List (α × β) → α → List (α × β)
  | [], _ => []
  | (k', v') :: rest, k => if k' = k then rest else (k', v') :: dictDel rest k

/-! ## UTF-8: `str.encode("utf-8")` and `bytes.decode("utf-8")` -/

/-- UTF-8 encoding of a single code point. -/
def utf8EncodeChar (c : Char) : List Nat :=
  let n := c.toNat
  if n < 0x80 then [n]
  else if n < 0x800 then [0xC0 + n / 0x40, 0x80 + n % 0x40]
  else if n < 0x10000 then
    [0xE0 + n / 0x1000, 0x80 + n / 0x40 % 0x40, 0x80 + n % 0x40]
  else
    [0xF0 + n / 0x40000, 0x80 + n / 0x1000 % 0x40, 0x80 + n / 0x40 % 0x40,
     0x80 + n % 0x40]

/-- Python `s.encode("utf-8")`. -/
def utf8Encode (s : String) : Bytes :=
  s.data.foldr (fun c acc => utf8EncodeChar c ++ acc) []

/-- Strict UTF-8 decoding loop: rejects truncated sequences, stray or
out-of-range continuation bytes, overlong encodings, surrogates and
code points above `0x10FFFF`, exactly as Python `bytes.decode("utf-8")`
raises `UnicodeDecodeError`.  Accumulates characters in reverse. -/
def utf8DecodeAux : List Nat → List Char → Option (List Char)
  | [], acc => some acc
  | b :: rest, acc =>
    if b < 0x80 then utf8DecodeAux rest (Char.ofNat b :: acc)
    else if b < 0xC2 then none
    else if b < 0xE0 then
      match rest with
      | b1 :: rest1 =>
        if 0x80 ≤ b1 ∧ b1 < 0xC0 then
          utf8DecodeAux rest1 (Char.ofNat ((b - 0xC0) * 0x40 + (b1 - 0x80)) :: acc)
        else none
      | _ => none
    else if b < 0xF0 then
      match rest with
      | b1 :: b2 :: rest2 =>
        if 0x80 ≤ b1 ∧ b1 < 0xC0 ∧ 0x80 ≤ b2 ∧ b2 < 0xC0 then
          let n := (b - 0xE0) * 0x1000 + (b1 - 0x80) * 0x40 + (b2 - 0x80)
          if 0x800 ≤ n ∧ ¬(0xD800 ≤ n ∧ n ≤ 0xDFFF) then
            utf8DecodeAux rest2 (Char.ofNat n :: acc)
          else none
        else none
      | _ => none
    else if b < 0xF5 then
      match rest with
      | b1 :: b2 :: b3 :: rest3 =>
        if 0x80 ≤ b1 ∧ b1 < 0xC0 ∧ 0x80 ≤ b2 ∧ b2 < 0xC0 ∧ 0x80 ≤ b3 ∧ b3 < 0xC0 then
          let n := (b - 0xF0) * 0x40000 + (b1 - 0x80) * 0x1000 +
                   (b2 - 0x80) * 0x40 + (b3 - 0x80)
          if 0x10000 ≤ n ∧ n ≤ 0x10FFFF then
            utf8DecodeAux rest3 (Char.ofNat n :: acc)
          else none
        else none
      | _ => none
    else none

/-- Python `bs.decode("utf-8")`: `none` models `UnicodeDecodeError`. -/
def utf8Decode (bs : Bytes) : Option String :=
  (utf8DecodeAux bs []).map fun cs => String.mk cs.reverse

/-! ## JSON: `json.dumps` / `json.loads`

The JSON value universe is modelled with integer numerals (the grids the
system exchanges are treated as opaque payloads; fractional literals are
not needed by any claim). -/

/-- A JSON value, as produced by `json.loads` and consumed by `json.dumps`. -/
inductive JVal where
  | jnull
  | jbool (b : Bool)
  | jnum (n : Int)
  | jstr (s : String)
  | jarr (items : List JVal)
  | jobj (fields : List (String × JVal))

/-- Lower-case hexadecimal digit. -/
def hexDigit (n : Nat) : Char :=
  if n < 10 then Char.ofNat (48 + n) else Char.ofNat (87 + n % 6)

/-- Four-digit hexadecimal numeral, as in a JSON `\u` escape. -/
def hex4 (n : Nat) : String :=
  String.mk [hexDigit (n / 0x1000 % 16), hexDigit (n / 0x100 % 16),
             hexDigit (n / 0x10 % 16), hexDigit (n % 16)]

/-- Escaping of one character inside a JSON string literal, following
`json.dumps` defaults (`ensure_ascii=True`). -/
def jsonEscapeChar (c : Char) : String :=
  if c = '\\' then "\\\\"
  else if c = '"' then "\\\""
  else if c = '\n' then "\\n"
  else if c = '\t' then "\\t"
  else if c = '\r' then "\\r"
  else if c.toNat = 8 then "\\b"
  else if c.toNat = 12 then "\\f"
  else if c.toNat < 0x20 then "\\u" ++ hex4 c.toNat
  else if c.toNat < 0x7F then String.singleton c
  else if c.toNat < 0x10000 then "\\u" ++ hex4 c.toNat
  else
    let n := c.toNat - 0x10000
    "\\u" ++ hex4 (0xD800 + n / 0x400) ++ "\\u" ++ hex4 (0xDC00 + n % 0x400)

/-- A JSON string literal for `s`. -/
def jsonQuote (s : String) : String :=
  "\"" ++ String.join (s.data.map jsonEscapeChar) ++ "\""

/-- Comma-separated joining with the `json.dumps` default separator. -/
def jsonJoin : List String → String
  | [] => ""
  | [x] => x
  | x :: rest => x ++ ", " ++ jsonJoin rest

/-- Python `json.dumps` with default options. -/
def jsonDumps : JVal → String
  | .jnull => "null"
  | .jbool true => "true"
  | .jbool false => "false"
  | .jnum n => toString n
  | .jstr s => jsonQuote s
  | .jarr items => "[" ++ jsonJoin (items.attach.map fun x => jsonDumps x.1) ++ "]"
  | .jobj fields =>
    "\x7b" ++
      jsonJoin (fields.attach.map fun f => jsonQuote f.1.1 ++ ": " ++ jsonDumps f.1.2) ++
    "\x7d"
termination_by v => sizeOf v
decreasing_by
  · have := List.sizeOf_lt_of_mem x.2
    simp only [JVal.jarr.sizeOf_spec]
    omega
  · have := List.sizeOf_lt_of_mem f.2
    have h2 : sizeOf f.1.2 < sizeOf f.1 := by
      obtain ⟨a, b⟩ := f.1
      simp only [Prod.mk.sizeOf_spec]
      omega
    simp only [JVal.jobj.sizeOf_spec]
    omega

/-- Whitespace skipping in the JSON grammar. -/
def jsonSkipWs : List Char → List Char
  | [] => []
  | c :: rest =>
    if c.toNat = 32 ∨ c.toNat = 9 ∨ c.toNat = 10 ∨ c.toNat = 13 then jsonSkipWs rest
    else c :: rest

/-- Decimal digit test. -/
def isDigitChar (c : Char) : Bool := 48 ≤ c.toNat ∧ c.toNat ≤ 57

/-- Greedy run of decimal digits. -/
def jsonTakeDigits : List Char → (List Char × List Char)
  | [] => ([], [])
  | c :: rest =>
    if isDigitChar c then
      let (ds, r) := jsonTakeDigits rest
      (c :: ds, r)
    else ([], c :: rest)

/-- Value of a digit run. -/
def digitsToNat : List Char → Nat
  | [] => 0
  | ds => ds.foldl (fun acc c => acc * 10 + (c.toNat - 48)) 0

/-- Hexadecimal digit value, if any. -/
def hexVal (c : Char) : Option Nat :=
  if 48 ≤ c.toNat ∧ c.toNat ≤ 57 then some (c.toNat - 48)
  else if 97 ≤ c.toNat ∧ c.toNat ≤ 102 then some (c.toNat - 87)
  else if 65 ≤ c.toNat ∧ c.toNat ≤ 70 then some (c.toNat - 55)
  else none

/-- Body of a JSON string literal (the opening quote already consumed):
ordinary characters must be `0x20` or above, escapes follow the JSON
grammar; `\u` escapes are accepted for non-surrogate code points. -/
def parseJsonStringBody : List Char → List Char → Option (String × List Char)
  | [], _ => none
  | c :: rest, acc =>
    if c = '"' then some (String.mk acc.reverse, rest)
    else if c = '\\' then
      match rest with
      | [] => none
      | e :: rest1 =>
        if e = '"' then parseJsonStringBody rest1 ('"' :: acc)
        else if e = '\\' then parseJsonStringBody rest1 ('\\' :: acc)
        else if e = '/' then parseJsonStringBody rest1 ('/' :: acc)
        else if e = 'b' then parseJsonStringBody rest1 (Char.ofNat 8 :: acc)
        else if e = 'f' then parseJsonStringBody rest1 (Char.ofNat 12 :: acc)
        else if e = 'n' then parseJsonStringBody rest1 ('\n' :: acc)
        else if e = 'r' then parseJsonStringBody rest1 ('\r' :: acc)
        else if e = 't' then parseJsonStringBody rest1 ('\t' :: acc)
        else if e = 'u' then
          match rest1 with
          | h1 :: h2 :: h3 :: h4 :: rest2 =>
            match hexVal h1, hexVal h2, hexVal h3, hexVal h4 with
            | some v1, some v2, some v3, some v4 =>
              let n := v1 * 0x1000 + v2 * 0x100 + v3 * 0x10 + v4
              if 0xD800 ≤ n ∧ n ≤ 0xDFFF then none
              else parseJsonStringBody rest2 (Char.ofNat n :: acc)
            | _, _, _, _ => none
          | _ => none
        else none
    else if c.toNat < 0x20 then none
    else parseJsonStringBody rest (c :: acc)

mutual

/-- Recursive-descent parse of one JSON value; `fuel` bounds nesting. -/
def parseJsonValue : Nat → List Char → Option (JVal × List Char)
  | 0, _ => none
  | _ + 1, [] => none
  | fuel + 1, c :: rest =>
    if c = 'n' then
      match rest with
      | 'u' :: 'l' :: 'l' :: rest1 => some (.jnull, rest1)
      | _ => none
    else if c = 't' then
      match rest with
      | 'r' :: 'u' :: 'e' :: rest1 => some (.jbool true, rest1)
      | _ => none
    else if c = 'f' then
      match rest with
      | 'a' :: 'l' :: 's' :: 'e' :: rest1 => some (.jbool false, rest1)
      | _ => none
    else if c = '"' then
      match parseJsonStringBody rest [] with
      | some (s, rest1) => some (.jstr s, rest1)
      | none => none
    else if c = '-' then
      match jsonTakeDigits rest with
      | ([], _) => none
      | (ds, rest1) =>
        if ds.length > 1 ∧ ds.headD '0' = '0' then none
        else some (.jnum (-(digitsToNat ds : Int)), rest1)
    else if isDigitChar c then
      match jsonTakeDigits (c :: rest) with
      | ([], _) => none
      | (ds, rest1) =>
        if ds.length > 1 ∧ ds.headD '0' = '0' then none
        else some (.jnum (digitsToNat ds : Int), rest1)
    else if c.toNat = 0x5B then
      match jsonSkipWs rest with
      | c1 :: rest1 =>
        if c1.toNat = 0x5D then some (.jarr [], rest1)
        else
          match parseJsonItems fuel (c1 :: rest1) with
          | some (items, rest2) => some (.jarr items, rest2)
          | none => none
      | [] => none
    else if c.toNat = 0x7B then
      match jsonSkipWs rest with
      | c1 :: rest1 =>
        if c1.toNat = 0x7D then some (.jobj [], rest1)
        else
          match parseJsonFields fuel (c1 :: rest1) with
          | some (fields, rest2) => some (.jobj fields, rest2)
          | none => none
      | [] => none
    else none

/-- Comma-separated array items, consuming the closing bracket. -/
def parseJsonItems : Nat → List Char → Option (List JVal × List Char)
  | 0, _ => none
  | fuel + 1, s =>
    match parseJsonValue fuel (jsonSkipWs s) with
    | none => none
    | some (v, rest) =>
      match jsonSkipWs rest with
      | c :: rest1 =>
        if c = ',' then
          match parseJsonItems fuel rest1 with
          | some (items, rest2) => some (v :: items, rest2)
          | none => none
        else if c.toNat = 0x5D then some ([v], rest1)
        else none
      | [] => none

/-- Comma-separated object members, consuming the closing brace. -/
def parseJsonFields : Nat → List Char → Option (List (String × JVal) × List Char)
  | 0, _ => none
  | fuel + 1, s =>
    match jsonSkipWs s with
    | c :: rest =>
      if c = '"' then
        match parseJsonStringBody rest [] with
        | none => none
        | some (key, rest1) =>
          match jsonSkipWs rest1 with
          | c1 :: rest2 =>
            if c1 = ':' then
              match parseJsonValue fuel (jsonSkipWs rest2) with
              | none => none
              | some (v, rest3) =>
                match jsonSkipWs rest3 with
                | c2 :: rest4 =>
                  if c2 = ',' then
                    match parseJsonFields fuel rest4 with
                    | some (fields, rest5) => some ((key, v) :: fields, rest5)
                    | none => none
                  else if c2.toNat = 0x7D then some ([(key, v)], rest4)
                  else none
                | [] => none
            else none
          | [] => none
      else none
    | [] => none

end

/-- Python `json.loads`: parse the whole input, allowing surrounding
whitespace; `none` models `json.JSONDecodeError`. -/
def jsonLoads (s : String) : Option JVal :=
  match parseJsonValue (s.length + 1) (jsonSkipWs s.data) with
  | some (v, rest) => if jsonSkipWs rest = [] then some v else none
  | none => none

/-! ## Python call binding

Used to model `TypeError` on keyword-argument mismatches. -/

/-- Whether a Python call binds: `numPos` positional arguments and the
keyword names `kwargs`, against a signature whose (non-`self`)
parameters are `params`, of which those in `defaults` carry default
values.  A `false` result is a `TypeError` at the call site. -/
def pyCallOk (params defaults : List String) (numPos : Nat) (kwargs : List String) : Bool :=
  decide (numPos ≤ params.length) &&
  kwargs.all (fun k => params.contains k) &&
  (params.take numPos).all (fun p => !kwargs.contains p) &&
  (params.drop numPos).all (fun p => kwargs.contains p || defaults.contains p)

/-! ## Message classes (src/zmq_msg_metrics.py)

`from_msg` returns `Except PyErr (Option _)`: `.ok none` is the explicit
`return None` taken when the tag or arity check fails, while `.error`
models an exception (`UnicodeDecodeError`, `json.JSONDecodeError`)
escaping from the decode calls inside `from_msg`. -/

/-- A `ControlMessage` instance: `__init__` stores `message`. -/
structure ControlMessage where
  message : String
  deriving DecidableEq

namespace ControlMessage

/-- Class attribute `header = b"CTRL"`. -/
def header : Bytes := utf8Encode "CTRL"

/-- The `msg` property: `[self.header, self.message.encode("utf-8")]`. -/
def msg (m : ControlMessage) : List Bytes :=
  [header, utf8Encode m.message]

/-- `ControlMessage.from_msg` (lines 17-23): `None` unless the frame
list has length 2 and the right header, else decode frame 1. -/
def from_msg (msg : List Bytes) : Except PyErr (Option ControlMessage) :=
  if msg.length ≠ 2 ∨ msg.getD 0 [] ≠ header then .ok none
  else
    match utf8Decode (msg.getD 1 []) with
    | none => .error .unicodeDecodeError
    | some s => .ok (some ⟨s⟩)

end ControlMessage

/-- A `MetricsMessage` instance: `__init__(self, hostname, grid_dict)`
stores exactly these two attributes — there is no `metrics_type`. -/
structure MetricsMessage where
  hostname : String
  grid_dict : JVal

namespace MetricsMessage

/-- Class attribute `header = b"METR"`. -/
def header : Bytes := utf8Encode "METR"

/-- The parameter names of `MetricsMessage.__init__` after `self`. -/
def init_params : List String := ["hostname", "grid_dict"]

/-- The instance attributes assigned by `MetricsMessage.__init__`. -/
def instance_attrs : List String := ["hostname", "grid_dict"]

/-- Reading `msg_obj.metrics_type`: `__init__` assigns only `hostname`
and `grid_dict`, so the attribute is missing and the read raises
`AttributeError`. -/
def metrics_type (_ : MetricsMessage) : Except PyErr String :=
  .error (.attributeError "metrics_type")

/-- The `msg` property:
`[self.header, self.hostname.encode("utf-8"), json.dumps(self.grid_dict).encode("utf-8")]`
— three frames, with no fourth frame carrying a message kind. -/
def msg (m : MetricsMessage) : List Bytes :=
  [header, utf8Encode m.hostname, utf8Encode (jsonDumps m.grid_dict)]

/-- `MetricsMessage.from_msg` (lines 37-43): `None` unless length 3 with
the right header, else decode the hostname and JSON-parse the grid. -/
def from_msg (msg : List Bytes) : Except PyErr (Option MetricsMessage) :=
  if msg.length ≠ 3 ∨ msg.getD 0 [] ≠ header then .ok none
  else
    match utf8Decode (msg.getD 1 []) with
    | none => .error .unicodeDecodeError
    | some hn =>
      match utf8Decode (msg.getD 2 []) with
      | none => .error .unicodeDecodeError
      | some gs =>
        match jsonLoads gs with
        | none => .error .jsonDecodeError
        | some g => .ok (some ⟨hn, g⟩)

end MetricsMessage

/-- A `ClientMetricsMessage` instance: `__init__` stores `metrics_dict`. -/
structure ClientMetricsMessage where
  metrics_dict : JVal

/-- Python `v.encode("utf-8")`: defined on `str` only; on any other
value the attribute lookup raises `AttributeError`. -/
def pyStrEncode (v : JVal) : Except PyErr Bytes :=
  match v with
  | .jstr s => .ok (utf8Encode s)
  | _ => .error (.attributeError "encode")

/-- Python `json.dumps` applied to a `bytes` object: `bytes` is not JSON
serializable, so the call raises `TypeError`. -/
def jsonDumpsOnBytes (_ : Bytes) : Except PyErr String :=
  .error .typeError

namespace ClientMetricsMessage

/-- Class attribute `header = b"CMET"`. -/
def header : Bytes := utf8Encode "CMET"

/-- The `msg` property (line 54):
`[self.header, json.dumps(self.metrics_dict.encode("utf-8"))]`.
The parenthesisation applies `.encode("utf-8")` to the dict itself and
then feeds the resulting bytes to `json.dumps`, so the property raises
on every instance (contrast `MetricsMessage.msg`, which encodes the
`json.dumps` output). -/
def msg (m : ClientMetricsMessage) : Except PyErr (List Bytes) := do
  let b ← pyStrEncode m.metrics_dict
  let s ← jsonDumpsOnBytes b
  pure [header, utf8Encode s]

/-- `ClientMetricsMessage.from_msg` (lines 56-62). -/
def from_msg (msg : List Bytes) : Except PyErr (Option ClientMetricsMessage) :=
  if msg.length ≠ 2 ∨ msg.getD 0 [] ≠ header then .ok none
  else
    match utf8Decode (msg.getD 1 []) with
    | none => .error .unicodeDecodeError
    | some s =>
      match jsonLoads s with
      | none => .error .jsonDecodeError
      | some v => .ok (some ⟨v⟩)

end ClientMetricsMessage

/-! ## Collector state (src/app_collector.py)

Wall-clock instants (`datetime.utcnow()`) are modelled as `Int` seconds,
so the `timedelta` constants become plain integers. -/

/-- State of `CollectorMetricRouterListener` (the agent-side ROUTER). -/
structure AgentListenerState where
  /-- `self.identities`: agent connection id → time of last received message. -/
  identities : List (Bytes × Int)
  /-- `self.hostname_to_conn_id`: reported hostname → connection id. -/
  hostname_to_conn_id : List (String × Bytes)

/-- State of `CollectorClientRouterListener` (the client-side ROUTER). -/
structure ClientListenerState where
  /-- `self.identities`: client connection id → time of last received message. -/
  identities : List (Bytes × Int)
  /-- `self.identities_last_send`: client connection id → time of last send. -/
  identities_last_send : List (Bytes × Int)

/-- Combined state of an `AppCollector` and its two listeners. -/
structure CollectorState where
  agents : AgentListenerState
  clients : ClientListenerState
  /-- `AppCollector.model_data`: hostname → cached model `MetricsMessage`. -/
  model_data : List (String × MetricsMessage)

/-- An attempted multipart send on one of the collector's sockets. -/
inductive Send where
  /-- `send(self.listen_agents.server, identity=conn_id)`. -/
  | toAgentSocket (identity : Bytes) (frames : List Bytes)
  /-- `send(self.listen_clients.server, identity=conn_id)`. -/
  | toClientSocket (identity : Bytes) (frames : List Bytes)

/-- Outcome of running a receive handler: the state after all mutations
performed up to normal return or up to the point an exception was
raised, the sends attempted, and the escaping exception if any. -/
structure RecvResult where
  state : CollectorState
  sends : List Send
  err : Option PyErr

namespace AppCollector

/-- `agent_interval_ms = 15000`: the agent-side sweep (and ping) period. -/
def agent_interval_ms : Nat := 15000

/-- `client_interval_ms = 5000`. -/
def client_interval_ms : Nat := 5000

/-- `stale_interval = timedelta(seconds=30)`. -/
def stale_interval : Int := 30

/-- `ping_interval = timedelta(seconds=20)`. -/
def ping_interval : Int := 20

/-- `AppCollector.record_model_data` (lines 170-172). -/
def record_model_data (st : CollectorState) (msg_obj : MetricsMessage) : CollectorState :=
  { st with model_data := dictSet st.model_data msg_obj.hostname msg_obj }

/-- The attempted send `msg_obj.send(client_conn_id)` in
`relay_metrics_to_clients` (line 207): the positional `socket` argument
receives the client's identity bytes, and `socket.send_multipart(msg)`
raises `AttributeError` because `bytes` has no `send_multipart`. -/
def sendOnConnIdBytes (_socket : Bytes) : Except PyErr Unit :=
  .error (.attributeError "send_multipart")

/-- The `for client_conn_id, client_last_recv in identities.items()` loop
of `relay_metrics_to_clients` (lines 203-210): each iteration attempts
`msg_obj.send(client_conn_id)` and then would update
`identities_last_send[client_conn_id]`; the send raises, aborting the
loop on its first iteration. -/
def relayLoop (now : Int) :
    List (Bytes × Int) → List (Bytes × Int) →
    List (Bytes × Int) × List Send × Option PyErr
  | last_send, [] => (last_send, [], none)
  | last_send, (client_conn_id, _) :: restClients =>
    match sendOnConnIdBytes client_conn_id with
    | .error e => (last_send, [], some e)
    | .ok _ =>
      relayLoop now (dictSet last_send client_conn_id now) restClients

/-- `AppCollector.relay_metrics_to_clients` (lines 192-213). -/
def relay_metrics_to_clients (st : CollectorState) (_msg_obj : MetricsMessage)
    (now : Int) : RecvResult :=
  let (ls, sends, err) := relayLoop now st.clients.identities_last_send st.clients.identities
  ⟨{ st with clients := { st.clients with identities_last_send := ls } }, sends, err⟩

/-- The `for hostname, msg_obj in self.model_data.items()` loop of
`send_cached_model_data_to_client` (lines 185-190): send each cached
model message to the client on the client-side server socket, updating
`identities_last_send[client_conn_id]` after each send. -/
def sendCachedLoop (client_conn_id : Bytes) (now : Int) :
    List (String × MetricsMessage) → ClientListenerState →
    ClientListenerState × List Send
  | [], cs => (cs, [])
  | (_, msg_obj) :: rest, cs =>
    let cs := { cs with
      identities_last_send := dictSet cs.identities_last_send client_conn_id now }
    let (cs', ss) := sendCachedLoop client_conn_id now rest cs
    (cs', Send.toClientSocket client_conn_id msg_obj.msg :: ss)

/-- `AppCollector.send_cached_model_data_to_client` (lines 174-190). -/
def send_cached_model_data_to_client (st : CollectorState) (client_conn_id : Bytes)
    (now : Int) : CollectorState × List Send :=
  let (cs, ss) := sendCachedLoop client_conn_id now st.model_data st.clients
  ({ st with clients := cs }, ss)

end AppCollector

namespace CollectorMetricRouterListener

/-- `bind_addr="tcp://%s:5556" % listen_ip` (line 52). -/
def bind_addr (listen_ip : String) : String := "tcp://" ++ listen_ip ++ ":5556"

/-- `zap_auth=False` (line 53): agents are not authenticated. -/
def zap_auth : Bool := false

/-- The silent-reconnect reconciliation of the `METR` arm of `on_recv`
(lines 73-86): if the hostname is already mapped to a different
connection id, delete the old connection id from `identities` (guarded
by membership) and remap the hostname; if the hostname is unmapped,
record the mapping; otherwise leave the state unchanged. -/
def reconnectReconcile (A : AgentListenerState) (conn_id : Bytes)
    (hostname : String) : AgentListenerState :=
  match dictGet A.hostname_to_conn_id hostname with
  | some old_conn_id =>
    if old_conn_id ≠ conn_id then
      let ids :=
        if (dictGet A.identities old_conn_id).isSome then
          dictDel A.identities old_conn_id
        else A.identities
      { A with
        identities := ids,
        hostname_to_conn_id := dictSet A.hostname_to_conn_id hostname conn_id }
    else A
  | none =>
    { A with
      hostname_to_conn_id := dictSet A.hostname_to_conn_id hostname conn_id }

/-- `CollectorMetricRouterListener.on_recv` (lines 60-118).

The liveness touch `self.identities[conn_id] = datetime.utcnow()`
happens before any dispatch.  In the `METR` arm, a `None` from
`from_msg` makes the following `msg_obj.hostname` raise
`AttributeError`; after the silent-reconnect reconciliation
(lines 76-86) the read `msg_obj.metrics_type` (line 91) raises
`AttributeError` on every decoded message, so the cache/cold-start code
and the relay call (lines 92-107) are embedded behind that read and are
unreachable.  In the `CTRL` arm, a non-`"hello"` message reaches
`logging.info("Received %s message from agent %s" % msg_obj.message, conn_id)`
(line 118), where the format string consumes one argument but has two
placeholders, raising `TypeError`. -/
def on_recv (st : CollectorState) (now : Int) (msg : List Bytes) : RecvResult :=
  match msg with
  | [] => ⟨st, [], some .indexError⟩
  | conn_id :: rest =>
    let st := { st with agents := { st.agents with
      identities := dictSet st.agents.identities conn_id now } }
    match rest with
    | [] => ⟨st, [], some .indexError⟩
    | tag :: _ =>
      if tag = MetricsMessage.header then
        match MetricsMessage.from_msg rest with
        | .error e => ⟨st, [], some e⟩
        | .ok none => ⟨st, [], some (.attributeError "hostname")⟩
        | .ok (some msg_obj) =>
          let st := { st with agents :=
            reconnectReconcile st.agents conn_id msg_obj.hostname }
          match MetricsMessage.metrics_type msg_obj with
          | .error e => ⟨st, [], some e⟩
          | .ok mt =>
            let stSends :=
              if mt = "model" then (AppCollector.record_model_data st msg_obj, [])
              else if (dictGet st.model_data msg_obj.hostname).isNone then
                (st, [Send.toAgentSocket conn_id (ControlMessage.msg ⟨"model"⟩)])
              else (st, [])
            let r := AppCollector.relay_metrics_to_clients stSends.1 msg_obj now
            ⟨r.state, stSends.2 ++ r.sends, r.err⟩
      else if tag = ControlMessage.header then
        match ControlMessage.from_msg rest with
        | .error e => ⟨st, [], some e⟩
        | .ok none => ⟨st, [], some (.attributeError "message")⟩
        | .ok (some msg_obj) =>
          if msg_obj.message = "hello" then
            ⟨st, [Send.toAgentSocket conn_id (ControlMessage.msg ⟨"model"⟩)], none⟩
          else ⟨st, [], some .typeError⟩
      else ⟨st, [], none⟩

end CollectorMetricRouterListener

namespace CollectorClientRouterListener

/-- `bind_addr="tcp://127.0.0.1:5557"` (line 129): the client-side
listener is bound to loopback regardless of the collector's
command-line `listen_ip`. -/
def bind_addr : String := "tcp://127.0.0.1:5557"

/-- `zap_auth=True` (line 130): clients must be authorized. -/
def zap_auth : Bool := true

/-- `CollectorClientRouterListener.on_recv` (lines 138-146).

`self.identities[client_conn_id] = datetime.utcnow()` runs first
(line 140), so the later membership test
`if client_conn_id not in self.identities` (line 145) is always false
and `send_cached_model_data_to_client` is never invoked. -/
def on_recv (st : CollectorState) (now : Int) (msg : List Bytes) : RecvResult :=
  match msg with
  | [] => ⟨st, [], some .indexError⟩
  | client_conn_id :: rest =>
    let st := { st with clients := { st.clients with
      identities := dictSet st.clients.identities client_conn_id now } }
    match rest with
    | [] => ⟨st, [], some .indexError⟩
    | tag :: _ =>
      if tag = ControlMessage.header then
        match ControlMessage.from_msg rest with
        | .error e => ⟨st, [], some e⟩
        | .ok none => ⟨st, [], some (.attributeError "message")⟩
        | .ok (some msg_obj) =>
          if msg_obj.message = "hello" then
            if (dictGet st.clients.identities client_conn_id).isNone then
              let (st', ss) :=
                AppCollector.send_cached_model_data_to_client st client_conn_id now
              ⟨st', ss, none⟩
            else ⟨st, [], none⟩
          else ⟨st, [], none⟩
      else ⟨st, [], none⟩

end CollectorClientRouterListener

namespace AppCollector

/-- First loop of `agent_periodictask` (lines 265-270): collect stale
connection ids into `to_remove` and ping the rest, in iteration order. -/
def agentSweepScan (utc_now : Int) : List (Bytes × Int) → List Bytes × List Send
  | [] => ([], [])
  | (conn_id, last_seen) :: rest =>
    let (tr, ss) := agentSweepScan utc_now rest
    if utc_now - last_seen > stale_interval then (conn_id :: tr, ss)
    else (tr, Send.toAgentSocket conn_id (ControlMessage.msg ⟨"ping"⟩) :: ss)

/-- `conn_id_to_hostname_map = dict((v, k) for k, v in hostname_to_conn_id.items())`
(line 274). -/
def reverseHostnameMap (d : List (String × Bytes)) : List (Bytes × String) :=
  d.foldl (fun m p => dictSet m p.2 p.1) []

/-- Body of the removal loop (lines 276-283) for one stale `conn_id`:
if a hostname reverse-resolves, drop it from `model_data`; then drop the
connection id from the agent identities.  `hostname_to_conn_id` is not
modified. -/
def removeOneAgent (m : List (Bytes × String)) (st : CollectorState)
    (conn_id : Bytes) : CollectorState :=
  let st :=
    match dictGet m conn_id with
    | some hostname =>
      if (dictGet st.model_data hostname).isSome then
        { st with model_data := dictDel st.model_data hostname }
      else st
    | none => st
  { st with agents := { st.agents with
      identities := dictDel st.agents.identities conn_id } }

/-- The `for conn_id in to_remove` loop (lines 276-283). -/
def removeAgentsLoop (m : List (Bytes × String)) :
    CollectorState → List Bytes → CollectorState
  | st, [] => st
  | st, conn_id :: rest => removeAgentsLoop m (removeOneAgent m st conn_id) rest

/-- `AppCollector.agent_periodictask` (lines 256-283). -/
def agent_periodictask (st : CollectorState) (utc_now : Int) :
    CollectorState × List Send :=
  let (to_remove, sends) := agentSweepScan utc_now st.agents.identities
  if to_remove.length ≠ 0 then
    let m := reverseHostnameMap st.agents.hostname_to_conn_id
    (removeAgentsLoop m st to_remove, sends)
  else (st, sends)

end AppCollector

/-! ## Agent (src/app_agent.py, src/metrics.py) -/

namespace MetricsCollectorClass

/-- The parameter names of `Collector.get_samples` after `self`
(src/metrics.py: `get_samples(self, host, metric_type='metrics')`). -/
def get_samples_params : List String := ["host", "metric_type"]

/-- The parameters of `get_samples` with default values. -/
def get_samples_defaults : List String := ["metric_type"]

end MetricsCollectorClass

namespace AppAgent

/-- `metrics_interval_ms = 1000`: the Agent's periodic push interval. -/
def metrics_interval_ms : Nat := 1000

/-- `stale_interval_ms = 10000`. -/
def stale_interval_ms : Nat := 10000

/-- `stale_interval_timedelta = timedelta(seconds=stale_interval_ms//1000)`. -/
def stale_interval_timedelta : Int := (stale_interval_ms : Int) / 1000

/-- `AppAgent.send_msg` (lines 116-126).  The call
`col.get_samples(metrics_type=metrics_type)` (line 122) passes an
unknown keyword and omits the required `host` parameter of
`Collector.get_samples(self, host, metric_type='metrics')`, raising
`TypeError`; were it to bind, the construction
`MetricsMessage(self.localhost.hostname, grid, metrics_type=metrics_type)`
(line 123) would also raise `TypeError`, since
`MetricsMessage.__init__(self, hostname, grid_dict)` accepts no
`metrics_type` keyword.  Either way no message is built or sent. -/
def send_msg (_metrics_type : String) : Except PyErr Unit :=
  if pyCallOk MetricsCollectorClass.get_samples_params
      MetricsCollectorClass.get_samples_defaults 0 ["metrics_type"] then
    if pyCallOk MetricsMessage.init_params [] 2 ["metrics_type"] then
      .ok ()
    else .error .typeError
  else .error .typeError

end AppAgent

/-- `timedelta(seconds=5)` in `AgentDealerConnection.on_recv` (line 64):
the model-request debounce window. -/
def MODEL_REQUEST_DEBOUNCE : Int := 5

/-- Mutable state of a running `AppAgent` relevant to its receive path. -/
structure AgentState where
  /-- `self.last_collector_msg_on`. -/
  last_collector_msg_on : Option Int
  /-- `self.received_model_request`: time of the last honoured model request. -/
  received_model_request : Option Int
  /-- Whether `self.periodic_metrics` is running. -/
  periodic_metrics_running : Bool
  deriving DecidableEq

/-- Outcome of `AgentDealerConnection.on_recv`: new state, whether
`send_msg(metrics_type='model')` was invoked, and any escaping
exception. -/
structure AgentRecvResult where
  state : AgentState
  model_send_attempted : Bool
  err : Option PyErr
  deriving DecidableEq

namespace AgentDealerConnection

/-- `AgentDealerConnection.on_recv` (lines 57-74).

`last_collector_msg_on` is updated first.  On a `Control{"model"}`
message inside the debounce guard, `received_model_request` is set and
`send_msg(metrics_type='model')` is invoked; because `send_msg` raises
`TypeError` (see `AppAgent.send_msg`), the subsequent start of the
periodic metrics task is skipped. -/
def on_recv (st : AgentState) (now : Int) (msg : List Bytes) : AgentRecvResult :=
  let st := { st with last_collector_msg_on := some now }
  match msg with
  | [] => ⟨st, false, some .indexError⟩
  | tag :: _ =>
    if tag = ControlMessage.header then
      match ControlMessage.from_msg msg with
      | .error e => ⟨st, false, some e⟩
      | .ok none => ⟨st, false, some (.attributeError "message")⟩
      | .ok (some msg_obj) =>
        if msg_obj.message = "model" then
          let fire :=
            match st.received_model_request with
            | none => true
            | some t0 => decide (now - t0 > MODEL_REQUEST_DEBOUNCE)
          if fire then
            let st := { st with received_model_request := some now }
            match AppAgent.send_msg "model" with
            | .error e => ⟨st, true, some e⟩
            | .ok _ =>
              let st :=
                if !st.periodic_metrics_running then
                  { st with periodic_metrics_running := true }
                else st
              ⟨st, true, none⟩
          else
            let st :=
              if !st.periodic_metrics_running then
                { st with periodic_metrics_running := true }
              else st
            ⟨st, false, none⟩
        else ⟨st, false, none⟩
    else ⟨st, false, none⟩

end AgentDealerConnection

/-- Feed a trace of timestamped incoming messages through
`AgentDealerConnection.on_recv`, collecting the times at which
`send_msg(metrics_type='model')` was invoked. -/
def agentModelAttempts (st : AgentState) : List (Int × List Bytes) → List Int
  | [] => []
  | (t, m) :: rest =>
    let r := AgentDealerConnection.on_recv st t m
    (if r.model_send_attempted then [t] else []) ++ agentModelAttempts r.state rest

/-- The separation the debounce enforces between two successive
invocations of `send_msg(metrics_type='model')`. -/
def attemptGap (a b : Int) : Prop := a + MODEL_REQUEST_DEBOUNCE < b

instance : IsTrans Int attemptGap :=
  ⟨fun _ _ _ h1 h2 => by unfold attemptGap MODEL_REQUEST_DEBOUNCE at *; omega⟩

instance (a b : Int) : Decidable (attemptGap a b) := by
  unfold attemptGap; infer_instance

/-! ## The Python dict key invariant

Every registry in the source is a Python dict, whose keys are unique;
association lists reaching the theorems below carry this invariant. -/

/-- The keys of the association list are pairwise distinct, as they are
in any Python dict. -/
def NodupKeys {α β : Type} (d : List (α × β)) : Prop := (d.map Prod.fst).Nodup

/-! ## Concrete states and frames used by the closed theorems -/

/-- A collector state with one registered client `b"\x09"` and nothing
else: the smallest state on which the relay fan-out should fire. -/
def stOneClient : CollectorState :=
  ⟨⟨[], []⟩, ⟨[([9], 0)], []⟩, []⟩

/-- A well-formed metrics wire message from agent connection `b"\x07"`:
hostname `"h1"`, grid `0`. -/
def wireMetricsH1 : List Bytes :=
  [[7], MetricsMessage.header, utf8Encode "h1", utf8Encode "0"]

/-- A collector state with one connected agent `b"\x03"` that reported
hostname `"h1"` and whose model data is cached. -/
def stOneAgent : CollectorState :=
  ⟨⟨[([3], 0)], [("h1", [3])]⟩, ⟨[], []⟩, [("h1", ⟨"h1", .jnum 0⟩)]⟩

/-! ## Association-list (Python dict) lemmas -/

section DictLemmas

variable {α β : Type} [DecidableEq α]

theorem dictGet_dictSet_self (d : List (α × β)) (k : α) (v : β) :
    dictGet (dictSet d k v) k = some v := by
  induction d with
  | nil => simp [dictSet, dictGet]
  | cons p rest ih =>
    obtain ⟨k', v'⟩ := p
    by_cases h : k' = k
    · subst h; simp [dictSet, dictGet]
    · simp [dictSet, dictGet, h, ih]

theorem dictGet_dictSet_ne (d : List (α × β)) (k k2 : α) (v : β) (hne : k ≠ k2) :
    dictGet (dictSet d k v) k2 = dictGet d k2 := by
  induction d with
  | nil => simp [dictSet, dictGet, hne]
  | cons p rest ih =>
    obtain ⟨k', v'⟩ := p
    by_cases h : k' = k
    · subst h; simp [dictSet, dictGet, hne]
    · simp [dictSet, dictGet, h, ih]

theorem dictGet_eq_none_of_not_mem_keys (d : List (α × β)) (k : α)
    (h : k ∉ d.map Prod.fst) : dictGet d k = none := by
  induction d with
  | nil => rfl
  | cons p rest ih =>
    obtain ⟨k', v'⟩ := p
    simp only [List.map_cons, List.mem_cons, not_or] at h
    have hne : ¬k' = k := fun hq => h.1 hq.symm
    simp [dictGet, hne, ih h.2]

theorem dictGet_dictDel_self (d : List (α × β)) (k : α) (hnd : NodupKeys d) :
    dictGet (dictDel d k) k = none := by
  induction d with
  | nil => rfl
  | cons p rest ih =>
    obtain ⟨k', v'⟩ := p
    unfold NodupKeys at hnd
    simp only [List.map_cons, List.nodup_cons] at hnd
    by_cases h : k' = k
    · subst h
      simpa [dictDel] using dictGet_eq_none_of_not_mem_keys rest k' hnd.1
    · simpa [dictDel, dictGet, h] using ih hnd.2

theorem dictGet_dictDel_of_none (d : List (α × β)) (k k2 : α)
    (h : dictGet d k2 = none) : dictGet (dictDel d k) k2 = none := by
  induction d with
  | nil => rfl
  | cons p rest ih =>
    obtain ⟨k', v'⟩ := p
    by_cases hk2 : k' = k2
    · subst hk2; simp [dictGet] at h
    · rw [dictGet, if_neg hk2] at h
      by_cases hk : k' = k
      · simpa [dictDel, hk] using h
      · simpa [dictDel, dictGet, hk, hk2] using ih h

theorem dictDel_sublist (d : List (α × β)) (k : α) : (dictDel d k).Sublist d := by
  induction d with
  | nil => simp [dictDel]
  | cons p rest ih =>
    obtain ⟨k', v'⟩ := p
    by_cases h : k' = k
    · rw [dictDel, if_pos h]; exact List.sublist_cons_self (k', v') rest
    · rw [dictDel, if_neg h]; exact ih.cons₂ (k', v')

theorem nodupKeys_dictDel (d : List (α × β)) (k : α) (hnd : NodupKeys d) :
    NodupKeys (dictDel d k) :=
  List.Nodup.sublist ((dictDel_sublist d k).map Prod.fst) hnd

theorem mem_keys_dictSet (d : List (α × β)) (k x : α) (v : β) :
    x ∈ (dictSet d k v).map Prod.fst ↔ x ∈ d.map Prod.fst ∨ x = k := by
  induction d with
  | nil => simp [dictSet]
  | cons p rest ih =>
    obtain ⟨k', v'⟩ := p
    by_cases h : k' = k
    · subst h; simp [dictSet]; tauto
    · simp [dictSet, h, ih]; tauto

theorem nodupKeys_dictSet (d : List (α × β)) (k : α) (v : β) (hnd : NodupKeys d) :
    NodupKeys (dictSet d k v) := by
  induction d with
  | nil => simp [NodupKeys, dictSet]
  | cons p rest ih =>
    obtain ⟨k', v'⟩ := p
    unfold NodupKeys at hnd ⊢
    simp only [List.map_cons, List.nodup_cons] at hnd
    by_cases h : k' = k
    · subst h
      simpa [dictSet] using hnd
    · simp only [dictSet, if_neg h, List.map_cons, List.nodup_cons]
      refine ⟨?_, ih hnd.2⟩
      rw [mem_keys_dictSet]
      rintro (hm | hm)
      · exact hnd.1 hm
      · exact h hm

end DictLemmas

/-! ## Handler characterization lemmas -/

/-- A frame list accepted by `MetricsMessage.from_msg` has exactly the
`METR` header and two payload frames. -/
theorem metrics_from_msg_shape (frames : List Bytes) (mo : MetricsMessage)
    (h : MetricsMessage.from_msg frames = .ok (some mo)) :
    ∃ b1 b2, frames = [MetricsMessage.header, b1, b2] := by
  unfold MetricsMessage.from_msg at h
  split at h
  · simp at h
  · next hcond =>
    push_neg at hcond
    obtain ⟨hlen, hhead⟩ := hcond
    match frames, hlen, hhead with
    | [a, b, c], _, hhead =>
      exact ⟨b, c, by rw [show a = MetricsMessage.header from hhead]⟩

/-- A frame list accepted by `ControlMessage.from_msg` has exactly the
`CTRL` header and one payload frame. -/
theorem control_from_msg_shape (frames : List Bytes) (mo : ControlMessage)
    (h : ControlMessage.from_msg frames = .ok (some mo)) :
    ∃ b1, frames = [ControlMessage.header, b1] := by
  unfold ControlMessage.from_msg at h
  split at h
  · simp at h
  · next hcond =>
    push_neg at hcond
    obtain ⟨hlen, hhead⟩ := hcond
    match frames, hlen, hhead with
    | [a, b], _, hhead =>
      exact ⟨b, by rw [show a = ControlMessage.header from hhead]⟩

/-- Processing any well-formed metrics wire message at the collector:
the agent's liveness is touched, the silent-reconnect reconciliation of
lines 73-86 runs, and then the read of `msg_obj.metrics_type` (line 91)
raises `AttributeError`, so nothing is cached, no cold-start request is
sent, and the relay is never invoked. -/
theorem on_recv_metrics_char (st : CollectorState) (now : Int) (conn_id : Bytes)
    (frames : List Bytes) (mo : MetricsMessage)
    (hdec : MetricsMessage.from_msg frames = .ok (some mo)) :
    CollectorMetricRouterListener.on_recv st now (conn_id :: frames) =
      ⟨{ st with agents := (CollectorMetricRouterListener.reconnectReconcile
            ({ st.agents with identities := dictSet st.agents.identities conn_id now })
            conn_id mo.hostname) },
        [], some (.attributeError "metrics_type")⟩ := by
  obtain ⟨b1, b2, rfl⟩ := metrics_from_msg_shape frames mo hdec
  unfold CollectorMetricRouterListener.on_recv
  dsimp only
  rw [if_pos rfl, hdec]
  rfl

/-- After the silent-reconnect reconciliation for `(conn_id, hostname)`,
the hostname maps to `conn_id`: either it already did, or it is
(re)mapped by the update. -/
theorem reconnectReconcile_hostname (A : AgentListenerState) (c : Bytes) (h : String) :
    dictGet (CollectorMetricRouterListener.reconnectReconcile A c h).hostname_to_conn_id h =
      some c := by
  unfold CollectorMetricRouterListener.reconnectReconcile
  cases hd : dictGet A.hostname_to_conn_id h with
  | none => exact dictGet_dictSet_self _ _ _
  | some old =>
    dsimp only
    by_cases hoc : old ≠ c
    · rw [if_pos hoc]
      exact dictGet_dictSet_self _ _ _
    · rw [if_neg hoc]
      push_neg at hoc
      rw [hd, hoc]

/-- If the hostname was mapped to a different connection id, the
reconciliation evicts that old connection id from the identities
registry. -/
theorem reconnectReconcile_evicts_old (A : AgentListenerState) (c : Bytes) (h : String)
    (old : Bytes) (hnd : NodupKeys A.identities)
    (hget : dictGet A.hostname_to_conn_id h = some old) (hne : old ≠ c) :
    dictGet (CollectorMetricRouterListener.reconnectReconcile A c h).identities old =
      none := by
  unfold CollectorMetricRouterListener.reconnectReconcile
  rw [hget]
  dsimp only
  rw [if_pos hne]
  dsimp only
  cases hmem : (dictGet A.identities old).isSome with
  | true => rw [if_pos rfl]; exact dictGet_dictDel_self _ _ hnd
  | false =>
    rw [if_neg Bool.false_ne_true]
    exact Option.not_isSome_iff_eq_none.mp (by rw [hmem]; exact Bool.false_ne_true)

/-- The reconciliation preserves the dict-key invariant of the agent
identities registry. -/
theorem reconnectReconcile_nodup (A : AgentListenerState) (c : Bytes) (h : String)
    (hnd : NodupKeys A.identities) :
    NodupKeys (CollectorMetricRouterListener.reconnectReconcile A c h).identities := by
  unfold CollectorMetricRouterListener.reconnectReconcile
  cases hd : dictGet A.hostname_to_conn_id h with
  | none => exact hnd
  | some old =>
    dsimp only
    by_cases hoc : old ≠ c
    · rw [if_pos hoc]
      dsimp only
      cases hmem : (dictGet A.identities old).isSome with
      | true => rw [if_pos rfl]; exact nodupKeys_dictDel _ _ hnd
      | false => rw [if_neg Bool.false_ne_true]; exact hnd
    · rw [if_neg hoc]; exact hnd

/-- The reconciliation leaves the hostname map unchanged at hostnames
other than the one being reconciled, and never touches anything but the
agent listener state. -/
theorem reconnectReconcile_hostname_ne (A : AgentListenerState) (c : Bytes)
    (h h2 : String) (hne : h ≠ h2) :
    dictGet (CollectorMetricRouterListener.reconnectReconcile A c h).hostname_to_conn_id h2 =
      dictGet A.hostname_to_conn_id h2 := by
  unfold CollectorMetricRouterListener.reconnectReconcile
  cases hd : dictGet A.hostname_to_conn_id h with
  | none => exact dictGet_dictSet_ne _ _ _ _ hne
  | some old =>
    dsimp only
    by_cases hoc : old ≠ c
    · rw [if_pos hoc]
      exact dictGet_dictSet_ne _ _ _ _ hne
    · rw [if_neg hoc]

/-- The first sweep loop marks exactly the stale connection ids, in
iteration order. -/
theorem agentSweepScan_fst (utc_now : Int) (ids : List (Bytes × Int)) :
    (AppCollector.agentSweepScan utc_now ids).1 =
      (ids.filter fun q =>
        decide (utc_now - q.2 > AppCollector.stale_interval)).map Prod.fst := by
  induction ids with
  | nil => rfl
  | cons q rest ih =>
    obtain ⟨c, t⟩ := q
    rw [AppCollector.agentSweepScan]
    cases hsc : AppCollector.agentSweepScan utc_now rest with
    | mk tr ss =>
      rw [hsc] at ih
      dsimp only at ih ⊢
      by_cases hst : utc_now - t > AppCollector.stale_interval
      · rw [if_pos hst]
        simp only [List.filter_cons, decide_eq_true hst, if_true, List.map_cons]
        exact congrArg (c :: ·) ih
      · rw [if_neg hst]
        simp only [List.filter_cons, decide_eq_false hst, if_false]
        exact ih

/-- A stale agent is marked for removal by the sweep scan. -/
theorem agentSweepScan_mem (utc_now : Int) (ids : List (Bytes × Int)) (p : Bytes)
    (last : Int) (hmem : (p, last) ∈ ids)
    (hstale : utc_now - last > AppCollector.stale_interval) :
    p ∈ (AppCollector.agentSweepScan utc_now ids).1 := by
  rw [agentSweepScan_fst]
  exact List.mem_map_of_mem Prod.fst
    (List.mem_filter.mpr ⟨hmem, decide_eq_true hstale⟩)

/-- The identities registry after removing one stale agent. -/
theorem removeOneAgent_ids (m : List (Bytes × String)) (st : CollectorState)
    (c : Bytes) :
    (AppCollector.removeOneAgent m st c).agents.identities =
      dictDel st.agents.identities c := by
  unfold AppCollector.removeOneAgent
  cases dictGet m c with
  | none => rfl
  | some h =>
    dsimp only
    by_cases hm : (dictGet st.model_data h).isSome = true
    · rw [if_pos hm]
    · rw [if_neg hm]

/-- Removing one stale agent never touches the hostname map or the
client listener state. -/
theorem removeOneAgent_frame (m : List (Bytes × String)) (st : CollectorState)
    (c : Bytes) :
    (AppCollector.removeOneAgent m st c).agents.hostname_to_conn_id =
      st.agents.hostname_to_conn_id ∧
    (AppCollector.removeOneAgent m st c).clients = st.clients := by
  unfold AppCollector.removeOneAgent
  cases dictGet m c with
  | none => exact ⟨rfl, rfl⟩
  | some h =>
    dsimp only
    by_cases hm : (dictGet st.model_data h).isSome = true
    · rw [if_pos hm]; exact ⟨rfl, rfl⟩
    · rw [if_neg hm]; exact ⟨rfl, rfl⟩

/-- A hostname absent from the model cache stays absent through the
removal of one agent. -/
theorem removeOneAgent_model_none (m : List (Bytes × String)) (st : CollectorState)
    (c : Bytes) (h2 : String) (habs : dictGet st.model_data h2 = none) :
    dictGet (AppCollector.removeOneAgent m st c).model_data h2 = none := by
  unfold AppCollector.removeOneAgent
  cases dictGet m c with
  | none => exact habs
  | some h =>
    dsimp only
    by_cases hm : (dictGet st.model_data h).isSome = true
    · rw [if_pos hm]
      exact dictGet_dictDel_of_none _ _ _ habs
    · rw [if_neg hm]; exact habs

/-- Removing a stale agent whose hostname reverse-resolves drops that
hostname from the model cache. -/
theorem removeOneAgent_model_target (m : List (Bytes × String)) (st : CollectorState)
    (c : Bytes) (h : String) (hm : dictGet m c = some h)
    (hnd : NodupKeys st.model_data) :
    dictGet (AppCollector.removeOneAgent m st c).model_data h = none := by
  unfold AppCollector.removeOneAgent
  rw [hm]
  dsimp only
  cases hs : (dictGet st.model_data h).isSome with
  | true =>
    rw [if_pos rfl]
    exact dictGet_dictDel_self _ _ hnd
  | false =>
    rw [if_neg Bool.false_ne_true]
    exact Option.not_isSome_iff_eq_none.mp (by rw [hs]; exact Bool.false_ne_true)

/-- Removing one agent preserves the dict-key invariants. -/
theorem removeOneAgent_nodup (m : List (Bytes × String)) (st : CollectorState)
    (c : Bytes) (hndI : NodupKeys st.agents.identities)
    (hndM : NodupKeys st.model_data) :
    NodupKeys (AppCollector.removeOneAgent m st c).agents.identities ∧
    NodupKeys (AppCollector.removeOneAgent m st c).model_data := by
  refine ⟨?_, ?_⟩
  · rw [removeOneAgent_ids]
    exact nodupKeys_dictDel _ _ hndI
  · unfold AppCollector.removeOneAgent
    cases dictGet m c with
    | none => exact hndM
    | some h =>
      dsimp only
      by_cases hm : (dictGet st.model_data h).isSome = true
      · rw [if_pos hm]
        exact nodupKeys_dictDel _ _ hndM
      · rw [if_neg hm]; exact hndM

/-- The removal loop leaves the hostname map and the client listener
state untouched. -/
theorem removeAgentsLoop_frame (m : List (Bytes × String)) (l : List Bytes) :
    ∀ st : CollectorState,
    (AppCollector.removeAgentsLoop m st l).agents.hostname_to_conn_id =
      st.agents.hostname_to_conn_id ∧
    (AppCollector.removeAgentsLoop m st l).clients = st.clients := by
  induction l with
  | nil => intro st; exact ⟨rfl, rfl⟩
  | cons c rest ih =>
    intro st
    rw [AppCollector.removeAgentsLoop]
    obtain ⟨h1, h2⟩ := ih (AppCollector.removeOneAgent m st c)
    obtain ⟨g1, g2⟩ := removeOneAgent_frame m st c
    exact ⟨h1.trans g1, h2.trans g2⟩

/-- A connection id absent from the identities registry stays absent
through the removal loop. -/
theorem removeAgentsLoop_ids_none (m : List (Bytes × String)) (l : List Bytes) :
    ∀ (st : CollectorState) (x : Bytes),
    dictGet st.agents.identities x = none →
    dictGet (AppCollector.removeAgentsLoop m st l).agents.identities x = none := by
  induction l with
  | nil => intro st x h; exact h
  | cons c rest ih =>
    intro st x h
    rw [AppCollector.removeAgentsLoop]
    refine ih _ x ?_
    rw [removeOneAgent_ids]
    exact dictGet_dictDel_of_none _ _ _ h

/-- A hostname absent from the model cache stays absent through the
removal loop. -/
theorem removeAgentsLoop_model_none (m : List (Bytes × String)) (l : List Bytes) :
    ∀ (st : CollectorState) (h2 : String),
    dictGet st.model_data h2 = none →
    dictGet (AppCollector.removeAgentsLoop m st l).model_data h2 = none := by
  induction l with
  | nil => intro st h2 h; exact h
  | cons c rest ih =>
    intro st h2 h
    rw [AppCollector.removeAgentsLoop]
    exact ih _ h2 (removeOneAgent_model_none m st c h2 h)

/-- Every connection id in the removal list is gone from the identities
registry once the removal loop finishes, and its reverse-resolved
hostname is gone from the model cache. -/
theorem removeAgentsLoop_removes (m : List (Bytes × String)) (l : List Bytes) :
    ∀ (st : CollectorState) (p : Bytes),
    NodupKeys st.agents.identities → NodupKeys st.model_data → p ∈ l →
    dictGet (AppCollector.removeAgentsLoop m st l).agents.identities p = none ∧
    ∀ h, dictGet m p = some h →
      dictGet (AppCollector.removeAgentsLoop m st l).model_data h = none := by
  induction l with
  | nil => intro st p _ _ hp; cases hp
  | cons c rest ih =>
    intro st p hndI hndM hp
    rw [AppCollector.removeAgentsLoop]
    obtain ⟨hndI', hndM'⟩ := removeOneAgent_nodup m st c hndI hndM
    rcases List.mem_cons.mp hp with rfl | hprest
    · refine ⟨?_, fun h hm => ?_⟩
      · refine removeAgentsLoop_ids_none m rest _ p ?_
        rw [removeOneAgent_ids]
        exact dictGet_dictDel_self _ _ hndI
      · exact removeAgentsLoop_model_none m rest _ h
          (removeOneAgent_model_target m st p h hm hndM)
    · exact ih _ p hndI' hndM' hprest

/-- One step of the agent's receive handler, seen through the debounce
state: a model-send attempt records its own time and can only fire from
a fresh state or more than `MODEL_REQUEST_DEBOUNCE` after the previous
attempt; a non-attempt leaves the recorded time unchanged. -/
theorem agent_on_recv_attempt (st : AgentState) (now : Int) (msg : List Bytes) :
    ((AgentDealerConnection.on_recv st now msg).model_send_attempted = true →
      (AgentDealerConnection.on_recv st now msg).state.received_model_request = some now ∧
      (st.received_model_request = none ∨
        ∃ t0, st.received_model_request = some t0 ∧ now - t0 > MODEL_REQUEST_DEBOUNCE)) ∧
    ((AgentDealerConnection.on_recv st now msg).model_send_attempted = false →
      (AgentDealerConnection.on_recv st now msg).state.received_model_request =
        st.received_model_request) := by
  unfold AgentDealerConnection.on_recv
  cases msg with
  | nil =>
    exact ⟨fun h => absurd h (by simp), fun _ => rfl⟩
  | cons tag rest =>
    dsimp only
    by_cases ht : tag = ControlMessage.header
    · rw [if_pos ht]
      cases hfm : ControlMessage.from_msg (tag :: rest) with
      | error e => exact ⟨fun h => absurd h (by simp), fun _ => rfl⟩
      | ok o =>
        cases o with
        | none => exact ⟨fun h => absurd h (by simp), fun _ => rfl⟩
        | some mo =>
          dsimp only
          by_cases hm : mo.message = "model"
          · rw [if_pos hm]
            cases hrm : st.received_model_request with
            | none =>
              dsimp only
              rw [show AppAgent.send_msg "model" = Except.error PyErr.typeError from rfl]
              exact ⟨fun _ => ⟨rfl, Or.inl rfl⟩, fun h => absurd h (by simp)⟩
            | some t0 =>
              dsimp only
              by_cases hgt : now - t0 > MODEL_REQUEST_DEBOUNCE
              · rw [decide_eq_true hgt, if_pos rfl]
                rw [show AppAgent.send_msg "model" = Except.error PyErr.typeError from rfl]
                exact ⟨fun _ => ⟨rfl, Or.inr ⟨t0, rfl, hgt⟩⟩, fun h => absurd h (by simp)⟩
              · rw [decide_eq_false hgt, if_neg Bool.false_ne_true]
                refine ⟨fun h => absurd h (by simp), fun _ => ?_⟩
                dsimp only
                split <;> rfl
          · rw [if_neg hm]
            exact ⟨fun h => absurd h (by simp), fun _ => rfl⟩
    · rw [if_neg ht]
      exact ⟨fun h => absurd h (by simp), fun _ => rfl⟩

/-- Along any trace of received messages, successive model-send
attempts are separated by more than the debounce window: the guard of
lines 62-65 only fires from a fresh state or strictly more than
`MODEL_REQUEST_DEBOUNCE` after the recorded previous attempt. -/
theorem agentModelAttempts_chain (trace : List (Int × List Bytes)) :
    ∀ st : AgentState,
    (st.received_model_request = none →
      List.Chain' attemptGap (agentModelAttempts st trace)) ∧
    (∀ t0, st.received_model_request = some t0 →
      List.Chain attemptGap t0 (agentModelAttempts st trace)) := by
  induction trace with
  | nil =>
    intro st
    exact ⟨fun _ => trivial, fun t0 _ => List.Chain.nil⟩
  | cons ev rest ih =>
    intro st
    obtain ⟨t, m⟩ := ev
    rw [agentModelAttempts]
    obtain ⟨hstep1, hstep0⟩ := agent_on_recv_attempt st t m
    cases hatt : (AgentDealerConnection.on_recv st t m).model_send_attempted with
    | true =>
      obtain ⟨hrec, hprev⟩ := hstep1 hatt
      have hchain :=
        (ih (AgentDealerConnection.on_recv st t m).state).2 t hrec
      rw [if_pos rfl]
      simp only [List.singleton_append]
      refine ⟨fun _ => ?_, fun t0 h0 => ?_⟩
      · exact hchain
      · refine List.Chain.cons ?_ hchain
        rcases hprev with hn | ⟨t1, ht1, hgt⟩
        · rw [h0] at hn; cases hn
        · rw [h0] at ht1
          have : t0 = t1 := Option.some.injEq _ _ ▸ ht1.symm ▸ rfl
          unfold attemptGap
          omega
    | false =>
      have hsame := hstep0 hatt
      rw [if_neg Bool.false_ne_true]
      simp only [List.nil_append]
      refine ⟨fun h0 => ?_, fun t0 h0 => ?_⟩
      · exact (ih (AgentDealerConnection.on_recv st t m).state).1 (hsame.trans h0)
      · exact (ih (AgentDealerConnection.on_recv st t m).state).2 t0 (hsame.trans h0)

/-- A list whose successive members are more than `MODEL_REQUEST_DEBOUNCE`
apart has at most one member in any closed window of that width. -/
theorem window_filter_le_one (w : Int) (l : List Int)
    (hpw : l.Pairwise attemptGap) :
    (l.filter fun t =>
      decide (w ≤ t) && decide (t ≤ w + MODEL_REQUEST_DEBOUNCE)).length ≤ 1 := by
  induction l with
  | nil => simp
  | cons a l ih =>
    rcases List.pairwise_cons.mp hpw with ⟨ha, hl⟩
    rw [List.filter_cons]
    by_cases hin : (decide (w ≤ a) && decide (a ≤ w + MODEL_REQUEST_DEBOUNCE)) = true
    · rw [if_pos hin]
      have hemp : (l.filter fun t =>
          decide (w ≤ t) && decide (t ≤ w + MODEL_REQUEST_DEBOUNCE)) = [] := by
        rw [List.filter_eq_nil_iff]
        intro b hb
        have hgap := ha b hb
        simp only [Bool.and_eq_true, decide_eq_true_eq] at hin ⊢
        unfold attemptGap at hgap
        omega
      rw [hemp]
      simp
    · rw [if_neg hin]
      exact ih hl

/-- Processing a well-formed `Control{"hello"}` wire message on the
collector's client-side listener: the client's liveness entry is
created or refreshed first (line 140), so the membership test of
line 145 always fails and no cached model data is sent. -/
theorem client_on_recv_hello_char (st : CollectorState) (now : Int) (c : Bytes)
    (frames : List Bytes) (mo : ControlMessage)
    (hdec : ControlMessage.from_msg frames = .ok (some mo))
    (hm : mo.message = "hello") :
    CollectorClientRouterListener.on_recv st now (c :: frames) =
      ⟨{ st with clients := { st.clients with
          identities := dictSet st.clients.identities c now } }, [], none⟩ := by
  obtain ⟨b1, rfl⟩ := control_from_msg_shape frames mo hdec
  unfold CollectorClientRouterListener.on_recv
  dsimp only
  rw [if_pos rfl, hdec]
  dsimp only
  rw [if_pos hm, dictGet_dictSet_self]
  rfl

/-! ## The claims -/

/-- Claim C1: whenever the collector receives a `Metrics` frame from an
agent, for every registered client a send of that frame over the
client-side server socket is attempted and `last_send` updated, before
the next frame.  The code violates this: on a well-formed metrics frame
with one registered client, the handler raises `AttributeError` at the
`msg_obj.metrics_type` read (line 91) before `relay_metrics_to_clients`
(line 107) is reached, so no send is attempted and `last_send` stays
empty; and even called directly, `relay_metrics_to_clients` raises
`AttributeError` on its first iteration because line 207 passes the
client's identity bytes where a socket is expected, again attempting no
send and updating no `last_send`. -/
theorem C1_fanout_never_attempted :
    (CollectorMetricRouterListener.on_recv stOneClient 5 wireMetricsH1).sends = [] ∧
    (CollectorMetricRouterListener.on_recv stOneClient 5
        wireMetricsH1).state.clients.identities_last_send = [] ∧
    (CollectorMetricRouterListener.on_recv stOneClient 5 wireMetricsH1).err =
      some (.attributeError "metrics_type") ∧
    (AppCollector.relay_metrics_to_clients stOneClient ⟨"h1", .jnum 0⟩ 5).sends = [] ∧
    (AppCollector.relay_metrics_to_clients stOneClient ⟨"h1", .jnum 0⟩ 5).err =
      some (.attributeError "send_multipart") ∧
    stOneClient.clients.identities = [([9], 0)] :=
  ⟨rfl, rfl, rfl, rfl, rfl, rfl⟩

/-- Claim C2: on every `Control{"hello"}` from a client the collector
enumerates `model_cache` and sends the cached model frames.  The code
violates this: line 140 inserts the client into `identities` before
line 145 tests `client_conn_id not in self.identities`, so the test is
always false and `send_cached_model_data_to_client` is never invoked —
no send happens and `identities_last_send` is untouched on any hello,
from a new or a known client. -/
theorem C2_hello_sends_no_model (st : CollectorState) (now : Int) (c : Bytes)
    (frames : List Bytes) (mo : ControlMessage)
    (hdec : ControlMessage.from_msg frames = .ok (some mo))
    (hm : mo.message = "hello") :
    (CollectorClientRouterListener.on_recv st now (c :: frames)).sends = [] ∧
    (CollectorClientRouterListener.on_recv st now
        (c :: frames)).state.clients.identities_last_send =
      st.clients.identities_last_send ∧
    (CollectorClientRouterListener.on_recv st now (c :: frames)).err = none := by
  rw [client_on_recv_hello_char st now c frames mo hdec hm]
  exact ⟨rfl, rfl, rfl⟩

/-- Witness for C2: a client `b"\x09"` says hello to a collector whose
model cache holds an entry for `"h1"`; still nothing is sent. -/
theorem C2_hello_sends_no_model_witness :
    (CollectorClientRouterListener.on_recv stOneAgent 5
      ([9] :: [ControlMessage.header, utf8Encode "hello"])).sends = [] ∧
    (CollectorClientRouterListener.on_recv stOneAgent 5
        ([9] :: [ControlMessage.header, utf8Encode "hello"])).state.clients.identities_last_send =
      stOneAgent.clients.identities_last_send ∧
    (CollectorClientRouterListener.on_recv stOneAgent 5
      ([9] :: [ControlMessage.header, utf8Encode "hello"])).err = none :=
  C2_hello_sends_no_model stOneAgent 5 [9] [ControlMessage.header, utf8Encode "hello"]
    ⟨"hello"⟩ rfl rfl

/-- Claim C3: `decode(encode(m)) == m` for all message variants, with
the `Metrics` encoding carrying the kind as its fourth frame.  The code
violates this: `MetricsMessage.msg` produces exactly three frames and
no kind (decoded messages have no `metrics_type` attribute at all), and
`ClientMetricsMessage.msg` raises on every instance because line 54
applies `.encode("utf-8")` to the dict (an `AttributeError`) — and on a
string payload `json.dumps` of the resulting bytes is a `TypeError` —
so no `ClientMetrics` frame can even be encoded. -/
theorem C3_codec_not_roundtrip :
    (∀ m : MetricsMessage, m.msg.length = 3) ∧
    (∀ m : MetricsMessage,
      MetricsMessage.metrics_type m = .error (.attributeError "metrics_type")) ∧
    (∀ m : ClientMetricsMessage, ∃ e, m.msg = Except.error e) ∧
    ClientMetricsMessage.msg ⟨.jobj [("host", .jnum 1)]⟩ =
      .error (.attributeError "encode") := by
  refine ⟨fun m => rfl, fun m => rfl, fun m => ?_, rfl⟩
  obtain ⟨d⟩ := m
  cases d with
  | jstr s => exact ⟨.typeError, rfl⟩
  | jnull => exact ⟨.attributeError "encode", rfl⟩
  | jbool b => exact ⟨.attributeError "encode", rfl⟩
  | jnum n => exact ⟨.attributeError "encode", rfl⟩
  | jarr items => exact ⟨.attributeError "encode", rfl⟩
  | jobj fields => exact ⟨.attributeError "encode", rfl⟩

/-- Claim C4: `MetricsMessage(hostname, grid, metrics_type=...)` is a
`TypeError` since `__init__` takes only `hostname` and `grid_dict`
(hence every `AppAgent.send_msg` call raises `TypeError` — in fact
already at the `get_samples(metrics_type=...)` call on line 122), and
no decoded message has a `metrics_type` attribute, so the collector's
read of `msg_obj.metrics_type` raises `AttributeError` on every
well-formed metrics frame. -/
theorem C4_send_msg_and_metrics_type_raise (frames : List Bytes) (mo : MetricsMessage)
    (hdec : MetricsMessage.from_msg frames = .ok (some mo)) :
    pyCallOk MetricsMessage.init_params [] 2 ["metrics_type"] = false ∧
    (∀ mt, AppAgent.send_msg mt = .error .typeError) ∧
    MetricsMessage.metrics_type mo = .error (.attributeError "metrics_type") ∧
    ∀ (st : CollectorState) (now : Int) (conn_id : Bytes),
      (CollectorMetricRouterListener.on_recv st now (conn_id :: frames)).err =
        some (.attributeError "metrics_type") := by
  refine ⟨rfl, fun mt => rfl, rfl, fun st now conn_id => ?_⟩
  rw [on_recv_metrics_char st now conn_id frames mo hdec]

/-- Witness for C4 at a concrete well-formed metrics frame. -/
theorem C4_send_msg_and_metrics_type_raise_witness :
    (CollectorMetricRouterListener.on_recv stOneClient 7
        ([7] :: [MetricsMessage.header, utf8Encode "h1", utf8Encode "0"])).err =
      some (.attributeError "metrics_type") :=
  (C4_send_msg_and_metrics_type_raise
      [MetricsMessage.header, utf8Encode "h1", utf8Encode "0"] ⟨"h1", .jnum 0⟩
      rfl).2.2.2 stOneClient 7 [7]

/-- Claim C5: malformed inbound frames on the agent endpoint are
discarded with the handler returning normally.  The code violates this:
a `METR` frame of wrong arity makes `from_msg` return `None` and the
subsequent `msg_obj.hostname` read raise `AttributeError`; bad UTF-8
raises `UnicodeDecodeError` and bad JSON `json.JSONDecodeError` from
inside `from_msg`; a short `CTRL` frame likewise raises
`AttributeError` — in each case the exception escapes `on_recv` instead
of the frame being discarded quietly. -/
theorem C5_malformed_frames_raise :
    (CollectorMetricRouterListener.on_recv stOneClient 5
      [[1], MetricsMessage.header, utf8Encode "x"]).err =
        some (.attributeError "hostname") ∧
    (CollectorMetricRouterListener.on_recv stOneClient 5
      [[1], MetricsMessage.header, [255], utf8Encode "0"]).err =
        some .unicodeDecodeError ∧
    (CollectorMetricRouterListener.on_recv stOneClient 5
      [[1], MetricsMessage.header, utf8Encode "h1", utf8Encode "\x7b"]).err =
        some .jsonDecodeError ∧
    (CollectorMetricRouterListener.on_recv stOneClient 5
      [[1], ControlMessage.header]).err = some (.attributeError "message") :=
  ⟨rfl, rfl, rfl, rfl⟩

/-- Counterexample to claim C6: sweeping `stOneAgent` at time 31 (its
only agent last seen at 0, stale window 30) removes peer `b"\x03"` from
`identities` and hostname `"h1"` from `model_data`, but `"h1"` is NOT
dropped from `hostname_to_conn_id` — it still maps to the removed peer,
contrary to the claim. -/
theorem C6_sweep_counterexample :
    dictGet (AppCollector.agent_periodictask stOneAgent 31).1.agents.identities [3] =
      none ∧
    dictGet (AppCollector.agent_periodictask stOneAgent 31).1.model_data "h1" = none ∧
    dictGet (AppCollector.agent_periodictask
        stOneAgent 31).1.agents.hostname_to_conn_id "h1" = some [3] :=
  ⟨rfl, rfl, rfl⟩

/-- Claim C6 as amended: when the agent liveness sweep removes a stale
peer, the peer is dropped from `identities` and its reverse-resolved
hostname from `model_cache`, but `hostname_to_peer` is left entirely
unchanged (so the evicted hostname may still map to the removed
peer). -/
theorem C6_sweep_amended (st : CollectorState) (utc_now : Int) (p : Bytes) (last : Int)
    (hndI : NodupKeys st.agents.identities) (hndM : NodupKeys st.model_data)
    (hmem : (p, last) ∈ st.agents.identities)
    (hstale : utc_now - last > AppCollector.stale_interval) :
    (AppCollector.agent_periodictask st utc_now).1.agents.hostname_to_conn_id =
      st.agents.hostname_to_conn_id ∧
    dictGet (AppCollector.agent_periodictask st utc_now).1.agents.identities p = none ∧
    ∀ h, dictGet (AppCollector.reverseHostnameMap st.agents.hostname_to_conn_id) p =
        some h →
      dictGet (AppCollector.agent_periodictask st utc_now).1.model_data h = none := by
  unfold AppCollector.agent_periodictask
  cases hsc : AppCollector.agentSweepScan utc_now st.agents.identities with
  | mk tr ss =>
    dsimp only
    have hp : p ∈ tr := by
      have hmm := agentSweepScan_mem utc_now st.agents.identities p last hmem hstale
      rw [hsc] at hmm
      exact hmm
    have hlen : tr.length ≠ 0 := by
      cases tr
      · cases hp
      · simp
    rw [if_pos hlen]
    obtain ⟨hids, hmod⟩ := removeAgentsLoop_removes
      (AppCollector.reverseHostnameMap st.agents.hostname_to_conn_id) tr st p
      hndI hndM hp
    exact ⟨(removeAgentsLoop_frame _ tr st).1, hids, hmod⟩

/-- Witness for the amended C6 at the concrete stale state. -/
theorem C6_sweep_amended_witness :
    (AppCollector.agent_periodictask stOneAgent 31).1.agents.hostname_to_conn_id =
      stOneAgent.agents.hostname_to_conn_id ∧
    dictGet (AppCollector.agent_periodictask stOneAgent 31).1.agents.identities [3] =
      none ∧
    ∀ h, dictGet (AppCollector.reverseHostnameMap
        stOneAgent.agents.hostname_to_conn_id) [3] = some h →
      dictGet (AppCollector.agent_periodictask stOneAgent 31).1.model_data h = none :=
  C6_sweep_amended stOneAgent 31 [3] 0
    (by unfold NodupKeys; decide) (by unfold NodupKeys; decide)
    (by decide) (by decide)

/-- Claim C7: after metrics frames with the same hostname arrive from
two distinct peers, the hostname maps only to the later peer and the
earlier peer is removed from the agent identities registry.  This holds:
lines 76-86 run before the `metrics_type` crash, and on the second
frame the old peer is deleted from `identities` and the hostname
remapped. -/
theorem C7_silent_reconnect (st : CollectorState) (now1 now2 : Int) (p q : Bytes)
    (f1 f2 : List Bytes) (mo1 mo2 : MetricsMessage)
    (hnd : NodupKeys st.agents.identities) (hpq : p ≠ q)
    (h1 : MetricsMessage.from_msg f1 = .ok (some mo1))
    (h2 : MetricsMessage.from_msg f2 = .ok (some mo2))
    (hh : mo1.hostname = mo2.hostname) :
    dictGet (CollectorMetricRouterListener.on_recv
        (CollectorMetricRouterListener.on_recv st now1 (p :: f1)).state
        now2 (q :: f2)).state.agents.hostname_to_conn_id mo2.hostname = some q ∧
    dictGet (CollectorMetricRouterListener.on_recv
        (CollectorMetricRouterListener.on_recv st now1 (p :: f1)).state
        now2 (q :: f2)).state.agents.identities p = none := by
  rw [on_recv_metrics_char st now1 p f1 mo1 h1]
  dsimp only
  rw [on_recv_metrics_char _ now2 q f2 mo2 h2]
  dsimp only
  set A1 := CollectorMetricRouterListener.reconnectReconcile
    ({ st.agents with identities := dictSet st.agents.identities p now1 })
    p mo1.hostname with hA1
  set A2 : AgentListenerState :=
    { A1 with identities := dictSet A1.identities q now2 } with hA2
  have hmap : dictGet A2.hostname_to_conn_id mo2.hostname = some p := by
    rw [hA2]
    dsimp only
    rw [← hh, hA1]
    exact reconnectReconcile_hostname _ p mo1.hostname
  have hndA2 : NodupKeys A2.identities := by
    rw [hA2]
    dsimp only
    refine nodupKeys_dictSet _ _ _ ?_
    rw [hA1]
    exact reconnectReconcile_nodup _ p mo1.hostname (nodupKeys_dictSet _ _ _ hnd)
  exact ⟨reconnectReconcile_hostname A2 q mo2.hostname,
    reconnectReconcile_evicts_old A2 q mo2.hostname p hndA2 hmap hpq⟩

/-- Witness for C7: two metrics frames for hostname `"h1"` from peers
`b"\x01"` and then `b"\x02"` on an initially empty collector. -/
theorem C7_silent_reconnect_witness :
    dictGet (CollectorMetricRouterListener.on_recv
        (CollectorMetricRouterListener.on_recv stOneClient 1
          ([1] :: [MetricsMessage.header, utf8Encode "h1", utf8Encode "0"])).state
        2 ([2] :: [MetricsMessage.header, utf8Encode "h1", utf8Encode "0"])).state.agents.hostname_to_conn_id
      "h1" = some [2] ∧
    dictGet (CollectorMetricRouterListener.on_recv
        (CollectorMetricRouterListener.on_recv stOneClient 1
          ([1] :: [MetricsMessage.header, utf8Encode "h1", utf8Encode "0"])).state
        2 ([2] :: [MetricsMessage.header, utf8Encode "h1", utf8Encode "0"])).state.agents.identities
      [1] = none :=
  C7_silent_reconnect stOneClient 1 2 [1] [2]
    [MetricsMessage.header, utf8Encode "h1", utf8Encode "0"]
    [MetricsMessage.header, utf8Encode "h1", utf8Encode "0"]
    ⟨"h1", .jnum 0⟩ ⟨"h1", .jnum 0⟩
    (by unfold NodupKeys; decide) (by decide) rfl rfl rfl

/-- Claim C8: the agent invokes `send_msg(metrics_type='model')` at most
once per `MODEL_REQUEST_DEBOUNCE` (5 s) window, however many
`Control{"model"}` messages arrive: along any trace, the number of
model-send attempts inside any closed window of width
`MODEL_REQUEST_DEBOUNCE` is at most one.  (Emitted model messages are a
subset of these attempts; in fact `send_msg` itself raises `TypeError`,
so no message is ever actually emitted.) -/
theorem C8_model_debounce (st : AgentState) (trace : List (Int × List Bytes)) (w : Int) :
    ((agentModelAttempts st trace).filter fun t =>
      decide (w ≤ t) && decide (t ≤ w + MODEL_REQUEST_DEBOUNCE)).length ≤ 1 := by
  apply window_filter_le_one
  cases hrm : st.received_model_request with
  | none =>
    exact List.chain'_iff_pairwise.mp ((agentModelAttempts_chain trace st).1 hrm)
  | some t0 =>
    exact (List.chain_iff_pairwise.mp
      ((agentModelAttempts_chain trace st).2 t0 hrm)).of_cons

/-- Claim C9: the agent's push interval should be 5 s and its stale
window 30 s, with `STALE_WINDOW ≥ 2 × peer_ping_period` for the
collector's 15 s ping period.  The code violates this: the push
interval is 1000 ms, the stale window is 10 s, and 10 < 2 × 15, so the
documented contract fails. -/
theorem C9_timing_constants :
    AppAgent.metrics_interval_ms = 1000 ∧
    AppAgent.stale_interval_timedelta = 10 ∧
    AppCollector.agent_interval_ms = 15000 ∧
    AppAgent.metrics_interval_ms ≠ 5000 ∧
    AppAgent.stale_interval_timedelta ≠ 30 ∧
    ¬(2 * ((AppCollector.agent_interval_ms : Int) / 1000) ≤
        AppAgent.stale_interval_timedelta) :=
  ⟨rfl, rfl, rfl, by decide, by decide, by decide⟩

/-- Claim C10: the client-side listener should bind at the command-line
address on port 5557 just as the agent-side listener does on 5556.  The
code violates this: the client listener's bind address is the constant
`tcp://127.0.0.1:5557`, ignoring `listen_ip`. -/
theorem C10_client_bind_addr :
    CollectorMetricRouterListener.bind_addr "0.0.0.0" = "tcp://0.0.0.0:5556" ∧
    CollectorClientRouterListener.bind_addr = "tcp://127.0.0.1:5557" ∧
    CollectorClientRouterListener.bind_addr ≠ "tcp://0.0.0.0:5557" ∧
    CollectorMetricRouterListener.zap_auth = false ∧
    CollectorClientRouterListener.zap_auth = true :=
  ⟨rfl, rfl, by decide, rfl, rfl⟩

end ZmqMetrics
